import Mathlib

/-
Verification development for the okx-scalping-bot repository.

The repository is JavaScript; this file is a shallow embedding of the parts
of the code that the checked claims are about:

* `src/strategy.js` (current version): the indicator library
  (`calculateBollingerBands`, `calculateSupertrend`, `calculateTrendLine`),
  the candle processing pipeline (`processCandle`, `generateSignal`,
  `generateCombinedSignal`, `generateEMASignal`, `handleMarketData`) and its
  module-level state (`priceHistory`, `ohlcHistory`, `lastCandleTimestamp`,
  `inPosition`, `positionType`), modelled as explicit state passing over
  `StratState`.
* `src/strategy.js` (earlier version, kept alongside in the repository):
  the tick-to-candle aggregator (`onTick`, `isCandleComplete`,
  `TIMEFRAME_MS`) and the `lastSignal`-based emission discipline of
  `processStrategy` (`emitStep`, `runEmitted`).
* `src/okx-client.js`: the reconnect backoff logic (`attemptReconnect`) and
  the attempt-counter reset in the websocket open handler (`resetOnOpen`).

JavaScript numbers are modelled as exact rationals (ℚ); epoch-millisecond
timestamps as ℤ (strategy pipeline) or ℕ (aggregator wall clock).  The
third-party `ta.js` indicator primitives (`sma`, `stdev`, `atr`, `ema`) are
not part of the repository; they are modelled from the spec's §4.3
definitions (windowed mean, population standard deviation, mean true range,
SMA-seeded EMA).  Standard deviation involves a square root, so Bollinger
band values live in ℝ; everything else is rational and computable.
-/

/-! ## String constants used by the strategy code -/

/-- Supertrend uptrend label. -/
def upStr : String := "up"

/-- Supertrend downtrend label. -/
def downStr : String := "down"

/-- Supertrend neutral label. -/
def neutralStr : String := "neutral"

/-- Buy action label. -/
def buyStr : String := "BUY"

/-- Sell action label. -/
def sellStr : String := "SELL"

/-- Initial value of `lastSignal` in the earlier strategy version. -/
def holdStr : String := "HOLD"

/-- Long position label. -/
def longStr : String := "long"

/-- Short position label. -/
def shortStr : String := "short"

/-- Substring tested by `tl.trend.includes("bullish")`. -/
def bullishStr : String := "bullish"

/-- Substring tested by `tl.trend.includes("bearish")`. -/
def bearishStr : String := "bearish"

/-- TrendLine classification: price above the upper Bollinger band. -/
def stronglyBullishStr : String := "strongly_bullish"

/-- TrendLine classification: price below the lower Bollinger band. -/
def stronglyBearishStr : String := "strongly_bearish"

/-- TrendLine classification: price above the middle Bollinger band. -/
def moderatelyBullishStr : String := "moderately_bullish"

/-- TrendLine classification: price at or below the middle Bollinger band. -/
def moderatelyBearishStr : String := "moderately_bearish"

/-- Strategy selector value for the EMA crossover strategy. -/
def emaStr : String := "EMA"

/-- Strategy selector value for the combined strategy (`config.STRATEGY`). -/
def combinedStr : String := "COMBINED"

/-! ## Configuration constants from `src/config.js` -/

/-- Constant `EMA_SHORT_PERIOD` from `src/config.js`. -/
def EMA_SHORT_PERIOD : ℕ := 9

/-- Constant `EMA_LONG_PERIOD` from `src/config.js`. -/
def EMA_LONG_PERIOD : ℕ := 21

/-- Constant `TLBB_FRACTALS_PERIOD` from `src/config.js`. -/
def TLBB_FRACTALS_PERIOD : ℕ := 15

/-- Constant `BB_LENGTH` from `src/config.js`. -/
def BB_LENGTH : ℕ := 20

/-- Constant `BB_DEVIATION` from `src/config.js`. -/
def BB_DEVIATION : ℚ := 2

/-- Constant `ST_PERIOD` from `src/config.js`. -/
def ST_PERIOD : ℕ := 10

/-- Constant `ST_MULTIPLIER` from `src/config.js`. -/
def ST_MULTIPLIER : ℚ := 3

/-- Constant `STRATEGY` from `src/config.js`. -/
def STRATEGY : String := "COMBINED"

/-- Constant `MAX_PRICE_HISTORY` from `src/config.js`. -/
def MAX_PRICE_HISTORY : ℕ := 1000

/-- Constant `MAX_OHLC_HISTORY` from `src/config.js`. -/
def MAX_OHLC_HISTORY : ℕ := 500

/-! ## Data model -/

/-- Ticker update object built in `src/okx-client.js` and pushed into
`priceHistory` by `handleMarketData`. -/
structure MarketData where
  price : ℚ
  volume : ℚ
  timestamp : ℤ
  serverTime : ℤ
deriving DecidableEq

/-- Candle object built in `src/okx-client.js` from a websocket candle frame
and consumed by `processCandle`.  The JavaScript field `open` is a Lean
keyword, hence `open_`. -/
structure Candle where
  open_ : ℚ
  high : ℚ
  low : ℚ
  close : ℚ
  volume : ℚ
  timestamp : ℤ
deriving DecidableEq

/-- Result record of `calculateBollingerBands` (upper, middle, lower). -/
structure BBands where
  upper : ℝ
  middle : ℝ
  lower : ℝ

/-- Result record of `calculateSupertrend`. -/
structure STResult where
  trend : String
  atr : ℚ
  upperBand : ℚ
  lowerBand : ℚ
deriving DecidableEq

/-- Result record of `calculateTrendLine`. -/
structure TLResult where
  trend : String
  swingHigh : ℚ
  swingLow : ℚ
  bb : BBands

/-- Trading signal as emitted by `emitSignal` in `src/strategy.js`.  The
wall-clock `timestamp` and constant `strategy` tag of the source object are
omitted from the model. -/
structure Signal where
  action : String
  price : ℚ
deriving DecidableEq

/-- Module-level mutable state of `src/strategy.js`, gathered into one
record: `priceHistory`, `ohlcHistory`, `lastCandleTimestamp`, `inPosition`
and `positionType`. -/
structure StratState where
  priceHistory : List MarketData
  ohlcHistory : List Candle
  lastCandleTimestamp : ℤ
  inPosition : Bool
  positionType : Option String
deriving DecidableEq

/-- Initial module state of `src/strategy.js`: empty histories, last
timestamp `0`, no position. -/
def initialState : StratState := ⟨[], [], 0, false, none⟩

/-! ## Modelled `ta.js` primitives -/

/-- Modelled from the spec: the trailing `n` elements of a list, in order
(the JavaScript `slice(-n)` window the spec's "trailing `length` elements"
refers to). -/
def lastN (n : ℕ) (xs : List α) : List α := xs.drop (xs.length - n)

/-- Modelled from the spec: arithmetic mean of a list of rationals (the
"windowed mean" component of §4.3); `0` on the empty list. -/
def mean (xs : List ℚ) : ℚ := xs.sum / (xs.length : ℚ)

/-- Modelled from the spec: population variance of a list of rationals. -/
def popVariance (xs : List ℚ) : ℚ := mean (xs.map fun x => (x - mean xs) ^ 2)

/-- Modelled from the spec: `ta.sma(series, length)`, the standard windowed
mean over the trailing `length` elements (spec §4.3). -/
def ta_sma (xs : List ℚ) (n : ℕ) : ℚ := mean (lastN n xs)

/-- Modelled from the spec: `ta.stdev(series, length)`, the population
standard deviation over the trailing `length` elements (spec §4.3).  The
square root forces the value into ℝ. -/
noncomputable def ta_stdev (xs : List ℚ) (n : ℕ) : ℝ :=
  Real.sqrt ((popVariance (lastN n xs) : ℚ) : ℝ)

/-- Modelled from the spec: the true-range sequence
`max(high-low, |high-prevClose|, |low-prevClose|)` (spec §4.3); the first
bar, which has no previous close, contributes `high - low`. -/
def trList (prev : Option ℚ) : List ℚ → List ℚ → List ℚ → List ℚ
  | h :: hs, l :: ls, c :: cs =>
      (match prev with
       | none => h - l
       | some pc => max (h - l) (max |h - pc| |l - pc|)) :: trList (some c) hs ls cs
  | _, _, _ => []

/-- Modelled from the spec: `ta.atr(highs, lows, closes, period)`, the mean
of the true range over the trailing `period` bars (spec §4.3). -/
def ta_atr (highs lows closes : List ℚ) (period : ℕ) : ℚ :=
  mean (lastN period (trList none highs lows closes))

/-- Modelled from the spec: one step of the EMA recurrence
`e = α·x + (1-α)·prev`. -/
def emaRec (α : ℚ) (prev : ℚ) : List ℚ → List ℚ
  | [] => []
  | x :: rest =>
      let e := α * x + (1 - α) * prev
      e :: emaRec α e rest

/-- Modelled from the spec: `ta.ema(series, length)`, the exponential moving
average sequence with smoothing factor `2/(length+1)`, seeded by the SMA of
the first `length` elements (spec §4.3). -/
def ta_ema (xs : List ℚ) (n : ℕ) : List ℚ :=
  if xs.length < n then []
  else
    let seed := mean (xs.take n)
    seed :: emaRec (2 / ((n : ℚ) + 1)) seed (xs.drop n)

/-! ## Indicator library (`src/strategy.js`, current version) -/

/-- Embedding of `calculateBollingerBands` (src/strategy.js:50-69): `null`
when fewer than `length` candles are available, otherwise the bands
`sma ± stdDev·deviation` over the close prices. -/
noncomputable def calculateBollingerBands (prices : List Candle) (length : ℕ)
    (deviation : ℚ) : Option BBands :=
  if prices.length < length then none
  else
    let closePrices := prices.map fun candle => candle.close
    let sma := ta_sma closePrices length
    let stdDev := ta_stdev closePrices length
    some ⟨(sma : ℝ) + stdDev * (deviation : ℝ), (sma : ℝ),
          (sma : ℝ) - stdDev * (deviation : ℝ)⟩

/-- Embedding of `calculateSupertrend` (src/strategy.js:78-126): `null` when
fewer than `period` candles are available, otherwise the bands
`(lastHigh+lastLow)/2 ± multiplier·atr` and the trend string derived from
the current and previous closes against those bands. -/
def calculateSupertrend (candles : List Candle) (period : ℕ)
    (multiplier : ℚ) : Option STResult :=
  if candles.length < period then none
  else
    let highs := candles.map fun candle => candle.high
    let lows := candles.map fun candle => candle.low
    let closes := candles.map fun candle => candle.close
    let atr := ta_atr highs lows closes period
    let upperBand := (highs.getD (highs.length - 1) 0 + lows.getD (lows.length - 1) 0) / 2
      + multiplier * atr
    let lowerBand := (highs.getD (highs.length - 1) 0 + lows.getD (lows.length - 1) 0) / 2
      - multiplier * atr
    let previousClose := closes.getD (closes.length - 2) 0
    let currentClose := closes.getD (closes.length - 1) 0
    let trend :=
      if currentClose > upperBand then upStr
      else if currentClose < lowerBand then downStr
      else if previousClose > upperBand then upStr
      else if previousClose < lowerBand then downStr
      else neutralStr
    some ⟨trend, atr, upperBand, lowerBand⟩

/-- Largest element of a list of rationals (`Math.max(...prices)`); only
applied to nonempty windows in the source. -/
def listMax : List ℚ → ℚ
  | [] => 0
  | x :: xs => xs.foldl max x

/-- Smallest element of a list of rationals (`Math.min(...prices)`). -/
def listMin : List ℚ → ℚ
  | [] => 0
  | x :: xs => xs.foldl min x

/-- Embedding of `calculateTrendLine` (src/strategy.js:133-173): `null` when
fewer than `TLBB_FRACTALS_PERIOD` candles are available or the Bollinger
computation yields `null`; otherwise the price-versus-bands trend
classification with the swing extrema of the trailing window. -/
noncomputable def calculateTrendLine (candles : List Candle) : Option TLResult :=
  if candles.length < TLBB_FRACTALS_PERIOD then none
  else
    match calculateBollingerBands candles BB_LENGTH BB_DEVIATION with
    | none => none
    | some bb =>
      let prices := candles.map fun candle => candle.close
      let swingHigh := listMax (lastN TLBB_FRACTALS_PERIOD prices)
      let swingLow := listMin (lastN TLBB_FRACTALS_PERIOD prices)
      let currentPrice := prices.getD (prices.length - 1) 0
      let trend :=
        if (currentPrice : ℝ) > bb.upper then stronglyBullishStr
        else if (currentPrice : ℝ) < bb.lower then stronglyBearishStr
        else if (currentPrice : ℝ) > bb.middle then moderatelyBullishStr
        else moderatelyBearishStr
      some ⟨trend, swingHigh, swingLow, bb⟩

/-! ## Signal state machine (`src/strategy.js`, current version) -/

/-- Substring test mirroring the JavaScript `String.prototype.includes`
calls `tl.trend.includes("bullish")` / `tl.trend.includes("bearish")`. -/
def strContains (hay needle : String) : Bool :=
  (List.range (hay.data.length + 1)).any fun i =>
    needle.data == (hay.data.drop i).take needle.data.length

/-- Decision core of `generateCombinedSignal` (src/strategy.js:299-323),
parameterised by the already-computed TrendLine and Supertrend trend
strings: the three-branch position state machine that mutates `inPosition`
and `positionType` and chooses the emitted action. -/
def combinedCore (tlTrend stTrend : String) (currentPrice : ℚ)
    (s : StratState) : StratState × Option Signal :=
  if strContains tlTrend bullishStr ∧ stTrend = upStr then
    (if ¬ s.inPosition ∨ s.positionType = some shortStr then
      ({ s with inPosition := true, positionType := some longStr },
        some ⟨buyStr, currentPrice⟩)
     else (s, none))
  else if strContains tlTrend bearishStr ∧ stTrend = downStr then
    (if ¬ s.inPosition ∨ s.positionType = some longStr then
      ({ s with inPosition := true, positionType := some shortStr },
        some ⟨sellStr, currentPrice⟩)
     else (s, none))
  else if (strContains tlTrend bearishStr ∧ s.positionType = some longStr)
      ∨ (strContains tlTrend bullishStr ∧ s.positionType = some shortStr) then
    ({ s with inPosition := false, positionType := none },
      some ⟨if s.positionType = some longStr then sellStr else buyStr, currentPrice⟩)
  else (s, none)

/-- Embedding of `generateCombinedSignal` (src/strategy.js:287-327):
computes the TrendLine and Supertrend indicators over the candle history and
feeds their trend strings to `combinedCore`; if either indicator returns
`null` it does nothing. -/
noncomputable def generateCombinedSignal (currentPrice : ℚ) (s : StratState) :
    StratState × Option Signal :=
  match calculateTrendLine s.ohlcHistory,
        calculateSupertrend s.ohlcHistory ST_PERIOD ST_MULTIPLIER with
  | some tl, some st => combinedCore tl.trend st.trend currentPrice s
  | _, _ => (s, none)

/-- Embedding of `generateEMASignal` (src/strategy.js:257-281): emits BUY on
an upward EMA crossover and SELL on a downward one, mutating no state. -/
def generateEMASignal (currentPrice : ℚ) (s : StratState) :
    StratState × Option Signal :=
  let prices := s.ohlcHistory.map fun candle => candle.close
  let emaShort := ta_ema prices EMA_SHORT_PERIOD
  let emaLong := ta_ema prices EMA_LONG_PERIOD
  let previousEmaShort := emaShort.getD (emaShort.length - 2) 0
  let previousEmaLong := emaLong.getD (emaLong.length - 2) 0
  let currentEmaShort := emaShort.getD (emaShort.length - 1) 0
  let currentEmaLong := emaLong.getD (emaLong.length - 1) 0
  if previousEmaShort < previousEmaLong ∧ currentEmaShort > currentEmaLong then
    (s, some ⟨buyStr, currentPrice⟩)
  else if previousEmaShort > previousEmaLong ∧ currentEmaShort < currentEmaLong then
    (s, some ⟨sellStr, currentPrice⟩)
  else (s, none)

/-- Embedding of `generateSignal` (src/strategy.js:232-251): reads the
latest close and dispatches on `config.STRATEGY`; an unknown strategy only
logs.  An empty history (impossible at the call site, and caught by the
source's `try`) yields no signal. -/
noncomputable def generateSignal (s : StratState) : StratState × Option Signal :=
  match s.ohlcHistory.getLast? with
  | none => (s, none)
  | some last =>
    let currentPrice := last.close
    if STRATEGY = emaStr then generateEMASignal currentPrice s
    else if STRATEGY = combinedStr then generateCombinedSignal currentPrice s
    else (s, none)

/-- JavaScript `history.slice(-cap)` trimming as applied in
`handleMarketData` and `processCandle`: drop the oldest elements when the
capacity is exceeded. -/
def trimTo (cap : ℕ) (l : List α) : List α :=
  if l.length > cap then l.drop (l.length - cap) else l

/-- History bookkeeping of `processCandle` (src/strategy.js:200-209) on an
accepted candle: update `lastCandleTimestamp`, append the candle and trim
`ohlcHistory` to `MAX_OHLC_HISTORY`. -/
def candleHistUpd (candle : Candle) (s : StratState) : StratState :=
  { s with
    lastCandleTimestamp := candle.timestamp,
    ohlcHistory := trimTo MAX_OHLC_HISTORY (s.ohlcHistory ++ [candle]) }

/-- Longest required lookback `Math.max(EMA_LONG_PERIOD, BB_LENGTH,
ST_PERIOD, TLBB_FRACTALS_PERIOD)` (src/strategy.js:212-217). -/
def maxLookback : ℕ :=
  max EMA_LONG_PERIOD (max BB_LENGTH (max ST_PERIOD TLBB_FRACTALS_PERIOD))

/-- Embedding of `processCandle` (src/strategy.js:193-227), parameterised by
the signal-generation stage so that the surrounding `try`/`catch` can be
modelled: a candle whose timestamp is not beyond `lastCandleTimestamp` is
dropped; otherwise the histories are updated, short histories suppress
signal generation, and a fault (`Except.error`) thrown by the signal stage
is caught, degrading to no signal with the bookkeeping state kept. -/
def processCandleCore
    (gen : StratState → Except String (StratState × Option Signal))
    (candle : Candle) (s : StratState) : StratState × Option Signal :=
  if candle.timestamp ≤ s.lastCandleTimestamp then (s, none)
  else
    let s1 := candleHistUpd candle s
    if s1.ohlcHistory.length < maxLookback then (s1, none)
    else
      match gen s1 with
      | Except.ok r => r
      | Except.error _ => (s1, none)

/-- Embedding of `processCandle` (src/strategy.js:193-227) with the actual
(total) signal stage `generateSignal` plugged in. -/
noncomputable def processCandle (candle : Candle) (s : StratState) :
    StratState × Option Signal :=
  processCandleCore (fun s1 => Except.ok (generateSignal s1)) candle s

/-- Repeated invocation of `processCandle` over a stream of inbound candles,
as driven by the `marketDataEmitter.on("candle", processCandle)`
subscription. -/
noncomputable def processList : List Candle → StratState → StratState
  | [], s => s
  | candle :: rest, s => processList rest (processCandle candle s).1

/-- Embedding of `handleMarketData` (src/strategy.js:179-187): push the
ticker update into `priceHistory` and trim to `MAX_PRICE_HISTORY`. -/
def handleMarketData (marketData : MarketData) (s : StratState) : StratState :=
  { s with
    priceHistory := trimTo MAX_PRICE_HISTORY (s.priceHistory ++ [marketData]) }

/-! ## Emission discipline of the earlier strategy version -/

/-- Emission step of `processStrategy` (earlier strategy version, the
`lastSignal` check): the computed signal is emitted only when it differs
from the previously published one, which then becomes the new
`lastSignal`. -/
def emitStep (signal lastSignal : String) : Option String × String :=
  if signal ≠ lastSignal then (some signal, signal) else (none, lastSignal)

/-- Actions emitted by the `lastSignal` discipline of `processStrategy` over
a stream of computed per-candle signals, starting from a given
`lastSignal`. -/
def runEmitted : List String → String → List String
  | [], _ => []
  | signal :: rest, lastSignal =>
    if signal ≠ lastSignal then signal :: runEmitted rest signal
    else runEmitted rest lastSignal

/-! ## Reconnect backoff (`src/okx-client.js`) -/

/-- Reconnect parameters read from `src/config.js` by `attemptReconnect`:
`INITIAL_RECONNECT_DELAY`, `RECONNECT_MULTIPLIER`,
`MAX_RECONNECT_ATTEMPTS`. -/
structure ReconnectConfig where
  initialDelay : ℚ
  multiplier : ℚ
  maxAttempts : ℕ

/-- Embedding of `attemptReconnect` (src/okx-client.js:105-121) acting on
the `reconnectAttempts` counter: `none` models the fatal
`process.exit(1)` taken once `maxAttempts` is reached; otherwise the
counter is incremented and a reconnect is scheduled after
`initialDelay * multiplier ^ (attempt - 1)` milliseconds. -/
def attemptReconnect (cfg : ReconnectConfig) (reconnectAttempts : ℕ) :
    Option (ℚ × ℕ) :=
  if cfg.maxAttempts ≤ reconnectAttempts then none
  else
    let attempts := reconnectAttempts + 1
    some (cfg.initialDelay * cfg.multiplier ^ (attempts - 1), attempts)

/-- Embedding of the `reconnectAttempts = 0` reset performed in the
websocket `open` handler (src/okx-client.js:14-17) after a successful
re-subscription. -/
def resetOnOpen (_reconnectAttempts : ℕ) : ℕ := 0

/-! ## Tick-to-candle aggregator (earlier strategy version) -/

/-- Timeframe duration in milliseconds: the earlier strategy version's
`TIMEFRAME_MS`, computed from its `CONFIG.timeframe = "30m"`. -/
def TIMEFRAME_MS : ℕ := 30 * 60 * 1000

/-- In-progress candle object of the earlier strategy version's aggregator
(`currentCandle`).  The JavaScript field `open` is a Lean keyword, hence
`open_`. -/
structure AggCandle where
  open_ : ℚ
  high : ℚ
  low : ℚ
  close : ℚ
  openTime : ℕ
  volume : ℚ
deriving DecidableEq

/-- Embedding of `isCandleComplete` (earlier strategy version): the candle
is complete once the wall clock reaches `openTime + TIMEFRAME_MS`. -/
def isCandleComplete (candle : AggCandle) (currentTime : ℕ) : Bool :=
  candle.openTime + TIMEFRAME_MS ≤ currentTime

/-- Embedding of the earlier strategy version's `marketData` handler (its
candle builder).  State is the optional in-progress candle (`none` models
`isFirstData = true`); `now` is the `Date.now()` wall clock — the tick's own
timestamp is never consulted.  The second component is the completed candle
handed to `processStrategy` on a boundary crossing. -/
def onTick (price : ℚ) (now : ℕ) :
    Option AggCandle → Option AggCandle × Option AggCandle
  | none =>
    (some ⟨price, price, price, price, now / TIMEFRAME_MS * TIMEFRAME_MS, 0⟩, none)
  | some currentCandle =>
    if isCandleComplete currentCandle now then
      (some ⟨price, price, price, price, currentCandle.openTime + TIMEFRAME_MS, 0⟩,
        some currentCandle)
    else
      (some { currentCandle with
                high := max currentCandle.high price,
                low := min currentCandle.low price,
                close := price,
                volume := currentCandle.volume + 1 }, none)

/-- Actions emitted by repeated `generateCombinedSignal` decisions
(`combinedCore`) over a stream of per-candle indicator outcomes, given as
(TrendLine trend, Supertrend trend) pairs; the current price does not
influence the decision and is passed as `0`. -/
def runCombined : List (String × String) → StratState → List String
  | [], _ => []
  | (tlTrend, stTrend) :: rest, s =>
    match combinedCore tlTrend stTrend 0 s with
    | (s2, some sig) => sig.action :: runCombined rest s2
    | (s2, none) => runCombined rest s2

/-! ## Concrete fixtures and spec-side definitions -/

/-- Spec-side definition, following the spec's words (§4.3): the "standard
windowed mean over the trailing `length` elements", written directly as sum
over count; stated for comparison with the source-side `ta_sma` in the
Bollinger refinement theorem. -/
def windowedMean (xs : List ℚ) (n : ℕ) : ℚ :=
  (lastN n xs).sum / ((lastN n xs).length : ℚ)

/-- Spec-side definition, following the spec's words (§4.3): the
"population standard deviation over the trailing `length` elements", the
square root of the mean squared deviation from the windowed mean; stated
for comparison with the source-side `ta_stdev` in the Bollinger refinement
theorem. -/
noncomputable def windowedStdDev (xs : List ℚ) (n : ℕ) : ℝ :=
  Real.sqrt
    (((((lastN n xs).map fun x => (x - windowedMean xs n) ^ 2).sum
        / (((lastN n xs).map fun x => (x - windowedMean xs n) ^ 2).length : ℚ) : ℚ) : ℝ))

/-- Bar fixture with the fields Supertrend reads (high, low, close). -/
def mkBar (h l c : ℚ) : Candle := ⟨0, h, l, c, 0, 0⟩

/-- Bar series for the Supertrend stability analysis: nine flat bars, one
narrow up bar, then one wide-range bar that inflates the ATR and widens the
bands. -/
def supertrendBars : List Candle :=
  [mkBar 100 100 100, mkBar 100 100 100, mkBar 100 100 100, mkBar 100 100 100,
   mkBar 100 100 100, mkBar 100 100 100, mkBar 100 100 100, mkBar 100 100 100,
   mkBar 100 100 100, mkBar 110 100 109, mkBar 120 90 105]

/-- Twenty flat bars, enough history for a Bollinger computation. -/
def bbBars : List Candle := List.replicate 20 (mkBar 100 100 100)

/-- Error payload used to model a thrown fault in the signal stage. -/
def boomStr : String := "boom"

/-- Twenty in-order candles with timestamps 0..19, one short of the 21-bar
lookback. -/
def histW9 : List Candle := (List.range 20).map fun i => ⟨1, 2, 1, 1, 1, (i : ℤ)⟩

/-- State holding `histW9`, ready to accept a 21st candle. -/
def sW9 : StratState := ⟨[], histW9, 19, false, none⟩

/-- The 21st candle, bringing the history exactly to the lookback. -/
def cW9 : Candle := ⟨1, 2, 1, 1, 1, 20⟩

/-! ## Helper lemmas -/

/-- Trimming never leaves more than `cap` elements. -/
theorem trimTo_length (cap : ℕ) (l : List α) : (trimTo cap l).length ≤ cap := by
  unfold trimTo
  split
  · rw [List.length_drop]
    omega
  · omega

/-- Trimming is exactly "keep the most recent `cap` elements in order". -/
theorem trimTo_eq_drop (cap : ℕ) (l : List α) :
    trimTo cap l = l.drop (l.length - cap) := by
  unfold trimTo
  split
  · rfl
  · have h0 : l.length - cap = 0 := by omega
    rw [h0, List.drop_zero]

/-- Trimming yields a sublist of the original history. -/
theorem trimTo_sublist (cap : ℕ) (l : List α) : List.Sublist (trimTo cap l) l := by
  rw [trimTo_eq_drop]
  exact List.drop_sublist _ _

/-- The combined-strategy decision core only touches `inPosition` and
`positionType`. -/
theorem combinedCore_fields (tlTrend stTrend : String) (price : ℚ)
    (s : StratState) :
    (combinedCore tlTrend stTrend price s).1.priceHistory = s.priceHistory
    ∧ (combinedCore tlTrend stTrend price s).1.ohlcHistory = s.ohlcHistory
    ∧ (combinedCore tlTrend stTrend price s).1.lastCandleTimestamp
        = s.lastCandleTimestamp := by
  unfold combinedCore
  split
  · split <;> exact ⟨rfl, rfl, rfl⟩
  · split
    · split <;> exact ⟨rfl, rfl, rfl⟩
    · split <;> exact ⟨rfl, rfl, rfl⟩

/-- Signal generation only touches `inPosition` and `positionType`: the
histories and the duplicate-detection timestamp survive it unchanged. -/
theorem generateSignal_fields (s : StratState) :
    (generateSignal s).1.priceHistory = s.priceHistory
    ∧ (generateSignal s).1.ohlcHistory = s.ohlcHistory
    ∧ (generateSignal s).1.lastCandleTimestamp = s.lastCandleTimestamp := by
  unfold generateSignal
  cases s.ohlcHistory.getLast? with
  | none => exact ⟨rfl, rfl, rfl⟩
  | some last =>
    dsimp only
    rw [if_neg (by decide), if_pos (by decide)]
    unfold generateCombinedSignal
    cases calculateTrendLine s.ohlcHistory with
    | none =>
      cases calculateSupertrend s.ohlcHistory ST_PERIOD ST_MULTIPLIER with
      | none => exact ⟨rfl, rfl, rfl⟩
      | some st => exact ⟨rfl, rfl, rfl⟩
    | some tl =>
      cases calculateSupertrend s.ohlcHistory ST_PERIOD ST_MULTIPLIER with
      | none => exact ⟨rfl, rfl, rfl⟩
      | some st => exact combinedCore_fields tl.trend st.trend last.close s

/-- Field-level description of the state produced by `processCandle`:
`priceHistory` is untouched, and `ohlcHistory` / `lastCandleTimestamp` are
updated exactly when the candle is accepted. -/
theorem processCandle_state_eq (candle : Candle) (s : StratState) :
    (processCandle candle s).1.priceHistory = s.priceHistory
    ∧ (processCandle candle s).1.ohlcHistory
        = (if candle.timestamp ≤ s.lastCandleTimestamp then s.ohlcHistory
           else trimTo MAX_OHLC_HISTORY (s.ohlcHistory ++ [candle]))
    ∧ (processCandle candle s).1.lastCandleTimestamp
        = (if candle.timestamp ≤ s.lastCandleTimestamp then s.lastCandleTimestamp
           else candle.timestamp) := by
  by_cases h : candle.timestamp ≤ s.lastCandleTimestamp
  · simp [processCandle, processCandleCore, h]
  · simp only [processCandle, processCandleCore, if_neg h]
    by_cases h2 : (candleHistUpd candle s).ohlcHistory.length < maxLookback
    · rw [if_pos h2]
      exact ⟨rfl, rfl, rfl⟩
    · rw [if_neg h2]
      exact ⟨(generateSignal_fields _).1, (generateSignal_fields _).2.1,
             (generateSignal_fields _).2.2⟩

/-! ## Claim C3: reconnect backoff -/

/-- Claim C3.  For every disconnect, the k-th reconnect attempt
(1 ≤ k ≤ MAX_RECONNECT_ATTEMPTS, i.e. from counter value k-1) is scheduled
after a delay of INITIAL_RECONNECT_DELAY × RECONNECT_MULTIPLIER^(k-1) and
advances the counter to k; once the counter has reached maxAttempts a
further disconnect is fatal (`none`, modelling the non-zero
`process.exit(1)`); and the counter is reset to zero by the websocket open
handler after a successful re-subscription. -/
theorem reconnect_backoff_schedule (cfg : ReconnectConfig) (k a : ℕ)
    (hk1 : 1 ≤ k) (hk2 : k ≤ cfg.maxAttempts) :
    attemptReconnect cfg (k - 1)
        = some (cfg.initialDelay * cfg.multiplier ^ (k - 1), k)
    ∧ attemptReconnect cfg cfg.maxAttempts = none
    ∧ resetOnOpen a = 0 := by
  refine ⟨?_, ?_, rfl⟩
  · unfold attemptReconnect
    rw [if_neg (by omega)]
    have hks : k - 1 + 1 = k := by omega
    rw [hks]
  · unfold attemptReconnect
    rw [if_pos (le_refl _)]

/-- Witness for C3: the spec's scenario `initialDelay=1000ms,
multiplier=1.5, maxAttempts=3` — the third attempt is scheduled after
`1000·1.5² = 2250` ms, and an attempt from counter value 3 is fatal. -/
theorem reconnect_backoff_schedule_witness :
    (1 ≤ 3 ∧ 3 ≤ (ReconnectConfig.mk 1000 (3 / 2) 3).maxAttempts)
    ∧ (attemptReconnect ⟨1000, 3 / 2, 3⟩ (3 - 1)
          = some ((1000 : ℚ) * (3 / 2 : ℚ) ^ (3 - 1 : ℕ), 3)
        ∧ attemptReconnect ⟨1000, 3 / 2, 3⟩ (ReconnectConfig.mk 1000 (3 / 2) 3).maxAttempts = none
        ∧ resetOnOpen 7 = 0)
    ∧ (1000 : ℚ) * (3 / 2 : ℚ) ^ (3 - 1 : ℕ) = 2250 :=
  ⟨⟨by decide, by decide⟩,
   reconnect_backoff_schedule ⟨1000, 3 / 2, 3⟩ 3 7 (by decide) (by decide),
   by norm_num⟩

/-! ## Claim C10: duplicate candles leave the state untouched -/

/-- Claim C10.  A candle whose timestamp is at most `lastCandleTimestamp`
is rejected with the whole strategy state — `priceHistory`, `ohlcHistory`,
`lastCandleTimestamp`, `inPosition`, `positionType` — unchanged and no
signal emitted. -/
theorem duplicate_candle_frame (candle : Candle) (s : StratState)
    (h : candle.timestamp ≤ s.lastCandleTimestamp) :
    processCandle candle s = (s, none) := by
  unfold processCandle processCandleCore
  rw [if_pos h]

/-- Witness for C10: a candle with timestamp 5 against a state whose last
processed candle also has timestamp 5 is dropped without any effect. -/
theorem duplicate_candle_frame_witness :
    (⟨1, 2, 1, 1, 3, 5⟩ : Candle).timestamp
        ≤ (⟨[], [⟨1, 2, 1, 1, 1, 5⟩], 5, false, none⟩ : StratState).lastCandleTimestamp
    ∧ processCandle ⟨1, 2, 1, 1, 3, 5⟩ ⟨[], [⟨1, 2, 1, 1, 1, 5⟩], 5, false, none⟩
        = (⟨[], [⟨1, 2, 1, 1, 1, 5⟩], 5, false, none⟩, none) :=
  ⟨by decide,
   duplicate_candle_frame ⟨1, 2, 1, 1, 3, 5⟩ ⟨[], [⟨1, 2, 1, 1, 1, 5⟩], 5, false, none⟩
     (by decide)⟩

/-! ## Claim C5: bounded histories -/

/-- Claim C5.  After `handleMarketData` the price history never exceeds
`MAX_PRICE_HISTORY` and equals exactly the most recent entries in order;
after `processCandle` the candle history never exceeds `MAX_OHLC_HISTORY`
(given it did not before), and on an accepted candle it equals exactly the
most recent entries in order — eviction is FIFO from the oldest side. -/
theorem bounded_history (marketData : MarketData) (candle : Candle)
    (s : StratState) :
    (handleMarketData marketData s).priceHistory.length ≤ MAX_PRICE_HISTORY
    ∧ (handleMarketData marketData s).priceHistory
        = (s.priceHistory ++ [marketData]).drop
            (s.priceHistory.length + 1 - MAX_PRICE_HISTORY)
    ∧ (s.ohlcHistory.length ≤ MAX_OHLC_HISTORY →
        (processCandle candle s).1.ohlcHistory.length ≤ MAX_OHLC_HISTORY)
    ∧ (s.lastCandleTimestamp < candle.timestamp →
        (processCandle candle s).1.ohlcHistory
          = (s.ohlcHistory ++ [candle]).drop
              (s.ohlcHistory.length + 1 - MAX_OHLC_HISTORY)) := by
  refine ⟨trimTo_length _ _, ?_, ?_, ?_⟩
  · show trimTo MAX_PRICE_HISTORY (s.priceHistory ++ [marketData]) = _
    rw [trimTo_eq_drop]
    have hlen : (s.priceHistory ++ [marketData]).length = s.priceHistory.length + 1 := by
      simp
    rw [hlen]
  · intro hle
    rw [(processCandle_state_eq candle s).2.1]
    split
    · exact hle
    · exact trimTo_length _ _
  · intro hlt
    rw [(processCandle_state_eq candle s).2.1,
        if_neg (not_le.mpr hlt), trimTo_eq_drop]
    have hlen : (s.ohlcHistory ++ [candle]).length = s.ohlcHistory.length + 1 := by
      simp
    rw [hlen]

/-- Witness for C5 on concrete inputs: one market-data tick and one fresh
candle processed from the initial (empty, in-capacity) state. -/
theorem bounded_history_witness :
    (handleMarketData ⟨9, 1, 4, 4⟩ initialState).priceHistory.length ≤ MAX_PRICE_HISTORY
    ∧ (handleMarketData ⟨9, 1, 4, 4⟩ initialState).priceHistory
        = (initialState.priceHistory ++ [(⟨9, 1, 4, 4⟩ : MarketData)]).drop
            (initialState.priceHistory.length + 1 - MAX_PRICE_HISTORY)
    ∧ initialState.ohlcHistory.length ≤ MAX_OHLC_HISTORY
    ∧ (processCandle ⟨1, 2, 1, 1, 3, 4⟩ initialState).1.ohlcHistory.length ≤ MAX_OHLC_HISTORY
    ∧ initialState.lastCandleTimestamp < (⟨1, 2, 1, 1, 3, 4⟩ : Candle).timestamp
    ∧ (processCandle ⟨1, 2, 1, 1, 3, 4⟩ initialState).1.ohlcHistory
        = (initialState.ohlcHistory ++ [(⟨1, 2, 1, 1, 3, 4⟩ : Candle)]).drop
            (initialState.ohlcHistory.length + 1 - MAX_OHLC_HISTORY) :=
  ⟨(bounded_history ⟨9, 1, 4, 4⟩ ⟨1, 2, 1, 1, 3, 4⟩ initialState).1,
   (bounded_history ⟨9, 1, 4, 4⟩ ⟨1, 2, 1, 1, 3, 4⟩ initialState).2.1,
   by decide,
   (bounded_history ⟨9, 1, 4, 4⟩ ⟨1, 2, 1, 1, 3, 4⟩ initialState).2.2.1 (by decide),
   by decide,
   (bounded_history ⟨9, 1, 4, 4⟩ ⟨1, 2, 1, 1, 3, 4⟩ initialState).2.2.2 (by decide)⟩

/-! ## Claim C6: insufficient history suppresses signals -/

/-- Claim C6.  Whenever the candle history held after `processCandle` is
still shorter than the strategy's longest required lookback
(`max(EMA_LONG_PERIOD, BB_LENGTH, ST_PERIOD, TLBB_FRACTALS_PERIOD)`), the
call emits no signal; in the total embedding it returns normally, so
insufficient history is a no-decision outcome, not a failure. -/
theorem insufficient_history_no_signal (candle : Candle) (s : StratState)
    (h : (processCandle candle s).1.ohlcHistory.length < maxLookback) :
    (processCandle candle s).2 = none := by
  by_cases hdup : candle.timestamp ≤ s.lastCandleTimestamp
  · unfold processCandle processCandleCore
    rw [if_pos hdup]
  · unfold processCandle processCandleCore
    rw [if_neg hdup]
    by_cases hlen : (candleHistUpd candle s).ohlcHistory.length < maxLookback
    · rw [if_pos hlen]
    · exfalso
      apply hlen
      calc (candleHistUpd candle s).ohlcHistory.length
          = (processCandle candle s).1.ohlcHistory.length := by
            rw [(processCandle_state_eq candle s).2.1, if_neg hdup]
            rfl
        _ < maxLookback := h

/-- Witness for C6: a third candle arriving on a two-candle history leaves
the history far below the 21-bar lookback, so no signal is emitted. -/
theorem insufficient_history_no_signal_witness :
    (processCandle ⟨1, 2, 1, 1, 1, 3⟩
        ⟨[], [⟨1, 2, 1, 1, 1, 1⟩, ⟨1, 2, 1, 1, 1, 2⟩], 2, false, none⟩).1.ohlcHistory.length
      < maxLookback
    ∧ (processCandle ⟨1, 2, 1, 1, 1, 3⟩
        ⟨[], [⟨1, 2, 1, 1, 1, 1⟩, ⟨1, 2, 1, 1, 1, 2⟩], 2, false, none⟩).2 = none :=
  ⟨by decide,
   insufficient_history_no_signal ⟨1, 2, 1, 1, 1, 3⟩
     ⟨[], [⟨1, 2, 1, 1, 1, 1⟩, ⟨1, 2, 1, 1, 1, 2⟩], 2, false, none⟩ (by decide)⟩

/-! ## Claim C4: strictly increasing candle history -/

/-- One `processCandle` step preserves the history invariant: timestamps
strictly increase along `ohlcHistory` and are all bounded by
`lastCandleTimestamp`. -/
theorem processCandle_inv (candle : Candle) (s : StratState)
    (h1 : s.ohlcHistory.Pairwise fun a b => a.timestamp < b.timestamp)
    (h2 : ∀ c ∈ s.ohlcHistory, c.timestamp ≤ s.lastCandleTimestamp) :
    ((processCandle candle s).1.ohlcHistory.Pairwise
        fun a b => a.timestamp < b.timestamp)
    ∧ ∀ c ∈ (processCandle candle s).1.ohlcHistory,
        c.timestamp ≤ (processCandle candle s).1.lastCandleTimestamp := by
  rw [(processCandle_state_eq candle s).2.1, (processCandle_state_eq candle s).2.2]
  by_cases h : candle.timestamp ≤ s.lastCandleTimestamp
  · rw [if_pos h, if_pos h]
    exact ⟨h1, h2⟩
  · rw [if_neg h, if_neg h]
    have hnew : ∀ c ∈ s.ohlcHistory, c.timestamp < candle.timestamp := by
      intro c hc
      exact lt_of_le_of_lt (h2 c hc) (not_le.mp h)
    have happ : (s.ohlcHistory ++ [candle]).Pairwise
        fun a b => a.timestamp < b.timestamp := by
      rw [List.pairwise_append]
      refine ⟨h1, List.pairwise_singleton _ _, ?_⟩
      intro a ha b hb
      rw [List.mem_singleton] at hb
      subst hb
      exact hnew a ha
    refine ⟨happ.sublist (trimTo_sublist _ _), ?_⟩
    intro c hc
    have hc2 : c ∈ s.ohlcHistory ++ [candle] :=
      (trimTo_sublist _ _).subset hc
    rcases List.mem_append.mp hc2 with hmem | hmem
    · exact le_of_lt (hnew c hmem)
    · rw [List.mem_singleton] at hmem
      subst hmem
      exact le_refl _

/-- The history invariant holds after processing any candle stream from any
state satisfying it. -/
theorem processList_inv (candles : List Candle) :
    ∀ s : StratState,
      (s.ohlcHistory.Pairwise fun a b => a.timestamp < b.timestamp) →
      (∀ c ∈ s.ohlcHistory, c.timestamp ≤ s.lastCandleTimestamp) →
      ((processList candles s).ohlcHistory.Pairwise
          fun a b => a.timestamp < b.timestamp)
      ∧ ∀ c ∈ (processList candles s).ohlcHistory,
          c.timestamp ≤ (processList candles s).lastCandleTimestamp := by
  induction candles with
  | nil => intro s h1 h2; exact ⟨h1, h2⟩
  | cons candle rest ih =>
    intro s h1 h2
    exact ih (processCandle candle s).1 (processCandle_inv candle s h1 h2).1
      (processCandle_inv candle s h1 h2).2

/-- Claim C4.  Over every inbound candle stream processed from the initial
state, the retained candle history is strictly increasing in timestamp
(hence no two candles share a timestamp), because `processCandle` drops any
candle whose timestamp is at most that of the last appended candle — the
final conjunct states that dropping behaviour. -/
theorem candle_history_strictly_increasing (candles : List Candle) :
    ((processList candles initialState).ohlcHistory.Pairwise
        fun a b => a.timestamp < b.timestamp)
    ∧ ((processList candles initialState).ohlcHistory.Pairwise
        fun a b => a.timestamp ≠ b.timestamp)
    ∧ ∀ (c : Candle) (s : StratState),
        c.timestamp ≤ s.lastCandleTimestamp →
        (processCandle c s).1.ohlcHistory = s.ohlcHistory := by
  have hbase := processList_inv candles initialState (by simp [initialState])
    (by simp [initialState])
  refine ⟨hbase.1, hbase.1.imp ne_of_lt, ?_⟩
  intro c s hle
  rw [(processCandle_state_eq c s).2.1, if_pos hle]

/-- Witness for C4: two in-order candles followed by a duplicate; the
duplicate-drop conjunct applied at the duplicate. -/
theorem candle_history_strictly_increasing_witness :
    ((processList [⟨1, 2, 1, 1, 1, 1⟩, ⟨1, 2, 1, 1, 1, 2⟩] initialState).ohlcHistory.Pairwise
        fun a b => a.timestamp < b.timestamp)
    ∧ (processCandle ⟨1, 2, 1, 1, 1, 2⟩
          ⟨[], [⟨1, 2, 1, 1, 1, 2⟩], 2, false, none⟩).1.ohlcHistory
        = (⟨[], [⟨1, 2, 1, 1, 1, 2⟩], 2, false, none⟩ : StratState).ohlcHistory :=
  ⟨(candle_history_strictly_increasing [⟨1, 2, 1, 1, 1, 1⟩, ⟨1, 2, 1, 1, 1, 2⟩]).1,
   (candle_history_strictly_increasing []).2.2 ⟨1, 2, 1, 1, 1, 2⟩
     ⟨[], [⟨1, 2, 1, 1, 1, 2⟩], 2, false, none⟩ (by decide)⟩

/-! ## Claim C8: tick-to-candle aggregation -/

/-- Claim C8.  For a tick at wall-clock time `now`: with an in-progress
candle and no boundary crossed, the tick is folded in as
`high = max(high, price)`, `low = min(low, price)`, `close = price` and the
volume grows by the tick's unit weight; once
`now ≥ openTime + TIMEFRAME_MS` the candle is completed (emitted to
`processStrategy`) and a fresh candle opens with all prices equal to the
tick price and `openTime = previous.openTime + TIMEFRAME_MS`; and the very
first tick seeds the candle at the timeframe-floor of the wall clock — the
tick's own timestamp is not consulted. -/
theorem aggregator_onTick (price : ℚ) (now : ℕ) (currentCandle : AggCandle) :
    (now < currentCandle.openTime + TIMEFRAME_MS →
        onTick price now (some currentCandle)
          = (some { currentCandle with
                      high := max currentCandle.high price,
                      low := min currentCandle.low price,
                      close := price,
                      volume := currentCandle.volume + 1 }, none))
    ∧ (currentCandle.openTime + TIMEFRAME_MS ≤ now →
        onTick price now (some currentCandle)
          = (some ⟨price, price, price, price,
                currentCandle.openTime + TIMEFRAME_MS, 0⟩, some currentCandle))
    ∧ onTick price now none
        = (some ⟨price, price, price, price,
              now / TIMEFRAME_MS * TIMEFRAME_MS, 0⟩, none) := by
  refine ⟨fun h => ?_, fun h => ?_, rfl⟩
  · have hb : isCandleComplete currentCandle now = false := by
      simp only [isCandleComplete, decide_eq_false_iff_not]
      omega
    simp [onTick, hb]
  · have hb : isCandleComplete currentCandle now = true := by
      simp only [isCandleComplete, decide_eq_true_eq]
      exact h
    simp [onTick, hb]

/-- Witness for C8: a fold step inside the timeframe, a rollover exactly at
the boundary, and the seeding of the very first candle. -/
theorem aggregator_onTick_witness :
    ((60 : ℕ) < (0 : ℕ) + TIMEFRAME_MS
      ∧ onTick 15 60 (some ⟨10, 12, 9, 11, 0, 5⟩)
          = (some ⟨10, 15, 9, 15, 0, 6⟩, none))
    ∧ ((0 : ℕ) + TIMEFRAME_MS ≤ (1800000 : ℕ)
      ∧ onTick 7 1800000 (some ⟨10, 12, 9, 11, 0, 5⟩)
          = (some ⟨7, 7, 7, 7, (0 : ℕ) + TIMEFRAME_MS, 0⟩, some ⟨10, 12, 9, 11, 0, 5⟩))
    ∧ onTick 9 3600005 none
        = (some ⟨9, 9, 9, 9, 3600005 / TIMEFRAME_MS * TIMEFRAME_MS, 0⟩, none) := by
  refine ⟨⟨by decide, ?_⟩, ⟨by decide, ?_⟩, (aggregator_onTick 9 3600005 ⟨0, 0, 0, 0, 0, 0⟩).2.2⟩
  · rw [(aggregator_onTick 15 60 ⟨10, 12, 9, 11, 0, 5⟩).1 (by decide)]
    norm_num [max_def, min_def]
  · exact (aggregator_onTick 7 1800000 ⟨10, 12, 9, 11, 0, 5⟩).2.1 (by decide)

/-! ## Claim C7: Bollinger band formula -/

/-- The source-side `ta.js` mean agrees with the spec-side windowed mean. -/
theorem ta_sma_eq_windowedMean (xs : List ℚ) (n : ℕ) :
    ta_sma xs n = windowedMean xs n := rfl

/-- The source-side `ta.js` standard deviation agrees with the spec-side
windowed population standard deviation. -/
theorem ta_stdev_eq_windowedStdDev (xs : List ℚ) (n : ℕ) :
    ta_stdev xs n = windowedStdDev xs n := rfl

/-- Claim C7.  With at least `length` candles, `calculateBollingerBands`
returns upper/middle/lower bands `SMA + deviation·StdDev`, `SMA`,
`SMA - deviation·StdDev`, where SMA and StdDev are the windowed mean and
population standard deviation of the trailing `length` closes; with fewer
candles it returns the insufficient-data result `none`. -/
theorem bollinger_bands_formula (prices : List Candle) (length : ℕ)
    (deviation : ℚ) :
    (length ≤ prices.length →
      calculateBollingerBands prices length deviation
        = some ⟨(windowedMean (prices.map fun c => c.close) length : ℝ)
                  + (deviation : ℝ) * windowedStdDev (prices.map fun c => c.close) length,
                (windowedMean (prices.map fun c => c.close) length : ℝ),
                (windowedMean (prices.map fun c => c.close) length : ℝ)
                  - (deviation : ℝ) * windowedStdDev (prices.map fun c => c.close) length⟩)
    ∧ (prices.length < length →
        calculateBollingerBands prices length deviation = none) := by
  constructor
  · intro hge
    simp only [calculateBollingerBands, if_neg (not_lt.mpr hge), Option.some.injEq,
      BBands.mk.injEq, ta_sma_eq_windowedMean, ta_stdev_eq_windowedStdDev]
    refine ⟨by ring, by trivial, by ring⟩
  · intro hlt
    simp only [calculateBollingerBands, if_pos hlt]

/-- Witness for C7: the formula on twenty bars, and the `none` result on a
five-bar prefix. -/
theorem bollinger_bands_formula_witness :
    (BB_LENGTH ≤ bbBars.length
      ∧ calculateBollingerBands bbBars BB_LENGTH BB_DEVIATION
          = some ⟨(windowedMean (bbBars.map fun c => c.close) BB_LENGTH : ℝ)
                    + (BB_DEVIATION : ℝ) * windowedStdDev (bbBars.map fun c => c.close) BB_LENGTH,
                  (windowedMean (bbBars.map fun c => c.close) BB_LENGTH : ℝ),
                  (windowedMean (bbBars.map fun c => c.close) BB_LENGTH : ℝ)
                    - (BB_DEVIATION : ℝ) * windowedStdDev (bbBars.map fun c => c.close) BB_LENGTH⟩)
    ∧ ((bbBars.take 5).length < BB_LENGTH
      ∧ calculateBollingerBands (bbBars.take 5) BB_LENGTH BB_DEVIATION = none) :=
  ⟨⟨by decide, (bollinger_bands_formula bbBars BB_LENGTH BB_DEVIATION).1 (by decide)⟩,
   ⟨by decide, (bollinger_bands_formula (bbBars.take 5) BB_LENGTH BB_DEVIATION).2 (by decide)⟩⟩

/-! ## Claim C9: a fault in the signal stage degrades to no signal -/

/-- Claim C9.  If the signal-generation stage throws (modelled by an
arbitrary stage `gen` returning `Except.error`) while processing an
accepted candle with sufficient history, the fault is caught: the call
returns no signal, the position state (`inPosition`, `positionType`) and
`priceHistory` are exactly as before the candle, the history bookkeeping
for the candle is retained, and processing of any subsequent candle from
the resulting state is identical to processing it from the normal
post-bookkeeping state — the error blocks nothing. -/
theorem signal_fault_degrades
    (gen : StratState → Except String (StratState × Option Signal))
    (candle : Candle) (s : StratState) (e : String)
    (hacc : s.lastCandleTimestamp < candle.timestamp)
    (hlen : ¬ (candleHistUpd candle s).ohlcHistory.length < maxLookback)
    (herr : gen (candleHistUpd candle s) = Except.error e) :
    processCandleCore gen candle s = (candleHistUpd candle s, none)
    ∧ (candleHistUpd candle s).inPosition = s.inPosition
    ∧ (candleHistUpd candle s).positionType = s.positionType
    ∧ (candleHistUpd candle s).priceHistory = s.priceHistory
    ∧ ∀ (gen2 : StratState → Except String (StratState × Option Signal))
        (c2 : Candle),
        processCandleCore gen2 c2 (processCandleCore gen candle s).1
          = processCandleCore gen2 c2 (candleHistUpd candle s) := by
  have hmain : processCandleCore gen candle s = (candleHistUpd candle s, none) := by
    simp only [processCandleCore, if_neg (not_le.mpr hacc), if_neg hlen, herr]
  exact ⟨hmain, rfl, rfl, rfl, fun gen2 c2 => by rw [hmain]⟩

/-- Witness for C9: a stage that always throws, hit by the 21st candle on a
20-candle history. -/
theorem signal_fault_degrades_witness :
    (sW9.lastCandleTimestamp < cW9.timestamp
      ∧ ¬ (candleHistUpd cW9 sW9).ohlcHistory.length < maxLookback)
    ∧ processCandleCore (fun _ => Except.error boomStr) cW9 sW9
        = (candleHistUpd cW9 sW9, none) :=
  ⟨⟨by decide, by decide⟩,
   (signal_fault_degrades (fun _ => Except.error boomStr) cW9 sW9 boomStr
      (by decide) (by decide) rfl).1⟩

/-! ## Claim C1: Supertrend trend stability -/

/-- Supertrend evaluated on the full eleven-bar fixture: the wide final bar
gives ATR 4 and bands 117/93, and the close 105 sits between them, so the
re-derived trend is `neutral`. -/
theorem supertrend_eval_full :
    calculateSupertrend supertrendBars ST_PERIOD ST_MULTIPLIER
      = some ⟨neutralStr, 4, 117, 93⟩ := by
  norm_num [calculateSupertrend, supertrendBars, mkBar, ta_atr, trList, lastN, mean,
    ST_PERIOD, ST_MULTIPLIER, max_def, List.getD]

/-- Supertrend evaluated on the fixture without its last bar: ATR 1, bands
108/102, and the close 109 is above the upper band, so the trend is
`up`. -/
theorem supertrend_eval_init :
    calculateSupertrend supertrendBars.dropLast ST_PERIOD ST_MULTIPLIER
      = some ⟨upStr, 1, 108, 102⟩ := by
  norm_num [calculateSupertrend, supertrendBars, mkBar, ta_atr, trList, lastN, mean,
    ST_PERIOD, ST_MULTIPLIER, max_def, List.getD, List.dropLast]

/-- Claim C1 counterexample.  On `supertrendBars` the current close (105)
crosses neither band of the full computation (117/93), yet the trend is
`neutral` while `calculateSupertrend` on the series without the last bar
returns `up`: the previous trend value is not retained across calls — the
"maintained" trend is re-derived from the previous close against the
current bands, which here have moved. -/
theorem supertrend_stability_counterexample :
    calculateSupertrend supertrendBars ST_PERIOD ST_MULTIPLIER
        = some ⟨neutralStr, 4, 117, 93⟩
    ∧ calculateSupertrend supertrendBars.dropLast ST_PERIOD ST_MULTIPLIER
        = some ⟨upStr, 1, 108, 102⟩
    ∧ ¬ ((supertrendBars.map fun c => c.close).getD (supertrendBars.length - 1) 0
          > (117 : ℚ))
    ∧ ¬ ((supertrendBars.map fun c => c.close).getD (supertrendBars.length - 1) 0
          < (93 : ℚ))
    ∧ (calculateSupertrend supertrendBars ST_PERIOD ST_MULTIPLIER).map
          (fun r => r.trend)
        ≠ (calculateSupertrend supertrendBars.dropLast ST_PERIOD ST_MULTIPLIER).map
          (fun r => r.trend) := by
  refine ⟨supertrend_eval_full, supertrend_eval_init, by decide, by decide, ?_⟩
  rw [supertrend_eval_full, supertrend_eval_init]
  decide

/-- Claim C1 (amended).  When the current close crosses neither band,
`calculateSupertrend` derives the retained trend from the previous close
compared against the *current* bands — `up`, `down` or `neutral` — rather
than retaining the trend the function would compute on the series without
its last bar (the function carries no state across calls).  The length
hypothesis keeps the embedding on the domain where the source's
`closes[closes.length-2]` access is defined. -/
theorem supertrend_trend_from_current_bands (candles : List Candle)
    (period : ℕ) (multiplier : ℚ) (st : STResult)
    (_hlen2 : 2 ≤ candles.length)
    (hst : calculateSupertrend candles period multiplier = some st)
    (hnoUp : ¬ ((candles.map fun c => c.close).getD (candles.length - 1) 0
        > st.upperBand))
    (hnoDown : ¬ ((candles.map fun c => c.close).getD (candles.length - 1) 0
        < st.lowerBand)) :
    st.trend
      = (if (candles.map fun c => c.close).getD (candles.length - 2) 0
            > st.upperBand then upStr
         else if (candles.map fun c => c.close).getD (candles.length - 2) 0
            < st.lowerBand then downStr
         else neutralStr) := by
  simp only [calculateSupertrend] at hst
  split at hst
  · exact absurd hst (by simp)
  · rw [Option.some_inj] at hst
    subst hst
    simp only [List.length_map] at hnoUp hnoDown ⊢
    rw [if_neg hnoUp, if_neg hnoDown]

/-- Witness for C1 (amended) on the eleven-bar fixture: no crossing, and
the trend equals the dichotomy of the previous close against the current
bands (here `neutral`). -/
theorem supertrend_trend_from_current_bands_witness :
    (2 ≤ supertrendBars.length
      ∧ calculateSupertrend supertrendBars ST_PERIOD ST_MULTIPLIER
          = some ⟨neutralStr, 4, 117, 93⟩
      ∧ ¬ ((supertrendBars.map fun c => c.close).getD (supertrendBars.length - 1) 0
            > (⟨neutralStr, 4, 117, 93⟩ : STResult).upperBand)
      ∧ ¬ ((supertrendBars.map fun c => c.close).getD (supertrendBars.length - 1) 0
            < (⟨neutralStr, 4, 117, 93⟩ : STResult).lowerBand))
    ∧ (⟨neutralStr, 4, 117, 93⟩ : STResult).trend
        = (if (supertrendBars.map fun c => c.close).getD (supertrendBars.length - 2) 0
              > (⟨neutralStr, 4, 117, 93⟩ : STResult).upperBand then upStr
           else if (supertrendBars.map fun c => c.close).getD (supertrendBars.length - 2) 0
              < (⟨neutralStr, 4, 117, 93⟩ : STResult).lowerBand then downStr
           else neutralStr) :=
  ⟨⟨by decide, supertrend_eval_full, by decide, by decide⟩,
   supertrend_trend_from_current_bands supertrendBars ST_PERIOD ST_MULTIPLIER
     ⟨neutralStr, 4, 117, 93⟩ (by decide) supertrend_eval_full (by decide) (by decide)⟩

/-! ## Claim C2: edge-triggered signal emission -/

/-- Claim C2 counterexample.  The position-tracking
`generateCombinedSignal` engine of the current strategy version can emit
the same action twice in a row: from flat, a bearish bar with Supertrend
`down` emits SELL (entering short); a bullish bar with Supertrend `neutral`
triggers the exit branch and emits BUY; the next bullish bar with
Supertrend `up` enters long and emits BUY again — the emitted stream
SELL, BUY, BUY repeats an action, so emission is not "only on change". -/
theorem combined_repeated_action_counterexample :
    runCombined [(stronglyBearishStr, downStr), (stronglyBullishStr, neutralStr),
        (stronglyBullishStr, upStr)] initialState
      = [sellStr, buyStr, buyStr]
    ∧ ¬ List.Chain' (fun a b => a ≠ b)
        (runCombined [(stronglyBearishStr, downStr), (stronglyBullishStr, neutralStr),
          (stronglyBullishStr, upStr)] initialState) := by
  have heval : runCombined [(stronglyBearishStr, downStr), (stronglyBullishStr, neutralStr),
      (stronglyBullishStr, upStr)] initialState = [sellStr, buyStr, buyStr] := by
    decide
  refine ⟨heval, ?_⟩
  rw [heval]
  intro hch
  rw [List.chain'_cons, List.chain'_cons] at hch
  exact hch.2.1 rfl

/-- Adjacent distinctness along the whole emission run, with the current
`lastSignal` prepended. -/
theorem runEmitted_chain (cs : List String) :
    ∀ lastSignal : String,
      List.Chain' (fun a b => a ≠ b) (lastSignal :: runEmitted cs lastSignal) := by
  induction cs with
  | nil =>
    intro lastSignal
    simp [runEmitted]
  | cons sig rest ih =>
    intro lastSignal
    by_cases h : sig ≠ lastSignal
    · simp only [runEmitted, if_pos h]
      rw [List.chain'_cons]
      exact ⟨Ne.symm h, ih sig⟩
    · simp only [runEmitted, if_neg h]
      exact ih lastSignal

/-- Claim C2 (amended).  In the `processStrategy` engine of the earlier
strategy version, a signal is emitted exactly when the computed action
differs from the previously published `lastSignal` (initially HOLD), and
consequently no two consecutively emitted signals carry the same action.
The current version's `generateCombinedSignal` engine does not satisfy
this discipline (see the counterexample). -/
theorem emit_on_change_only :
    (∀ signal lastSignal : String,
        (emitStep signal lastSignal).1 ≠ none ↔ signal ≠ lastSignal)
    ∧ ∀ computed : List String,
        List.Chain' (fun a b => a ≠ b) (runEmitted computed holdStr) := by
  constructor
  · intro signal lastSignal
    unfold emitStep
    split
    case isTrue h => simpa using h
    case isFalse h => simpa using h
  · intro computed
    exact (runEmitted_chain computed holdStr).tail

/-- Witness for C2 (amended): a changed action is emitted, and a concrete
computed stream BUY, BUY, SELL yields an emitted stream with no immediate
repetition. -/
theorem emit_on_change_only_witness :
    (emitStep buyStr holdStr).1 ≠ none
    ∧ List.Chain' (fun a b => a ≠ b) (runEmitted [buyStr, buyStr, sellStr] holdStr) :=
  ⟨(emit_on_change_only.1 buyStr holdStr).mpr (by decide),
   emit_on_change_only.2 [buyStr, buyStr, sellStr]⟩
